import Mathlib

/-!
# Operator event loop of incredible-squaring-avs

A shallow embedding of `operator/operator.go`: the methods `Operator.Start`,
`Operator.ProcessNewTaskCreatedLog` and `Operator.SignTaskResponse`.

Stateful Go code is embedded as pure functions that return the list of
externally visible effects they perform (in program order) next to their
result.  Everything the outside world contributes (the reply of the delegate
HTTP service, the communication chosen by a `select`, the reply of the
registration query) is an explicit argument.
-/

namespace IncredibleSquaring

/-! ## Data model -/

/-- Go `common.Address`, kept as its hex text. -/
abbrev Address := String

/-- Go `[32]byte` digest returned by `core.GetTaskResponseDigest`, read as a number. -/
abbrev Digest := Nat

/-- Go `bls.OperatorId` (`[32]byte`), read as a number. -/
abbrev OperatorId := Nat

/-- Go `bls.KeyPair`: only the private scalar matters for signing. -/
structure KeyPair where
  PrivKey : Nat
  deriving DecidableEq, Repr

/-- Go `bls.Signature`: a curve point, kept as an abstract number. -/
structure Signature where
  G1Point : Nat
  deriving DecidableEq, Repr

/-- Go `cstaskmanager.IIncredibleSquaringTaskManagerTask`, the fields the operator reads.
`ComputeRequestClientId` is a `*big.Int`. -/
structure Task where
  ComputeRequestClientId : Int
  TaskCreatedBlock : Nat
  QuorumNumbers : List Nat
  QuorumThresholdPercentage : Nat
  deriving DecidableEq, Repr

/-- Go `cstaskmanager.ContractIncredibleSquaringTaskManagerNewTaskCreated`. -/
structure NewTaskCreated where
  TaskIndex : Nat
  Task : Task
  deriving DecidableEq, Repr

/-- Go `cstaskmanager.IIncredibleSquaringTaskManagerTaskResponse`. -/
structure TaskResponse where
  ReferenceTaskIndex : Nat
  EncryptedLoanApplicationInference : String
  deriving DecidableEq, Repr

/-- Go `aggregator.SignedTaskResponse`. -/
structure SignedTaskResponse where
  TaskResponse : TaskResponse
  BlsSignature : Signature
  OperatorId : OperatorId
  deriving DecidableEq, Repr

/-- Go `types.NodeConfig`, the two switches `Start` reads. -/
structure NodeConfig where
  EnableNodeApi : Bool
  EnableMetrics : Bool
  deriving DecidableEq, Repr

/-- Go `Operator`: the fields read by `Start`, `ProcessNewTaskCreatedLog` and
`SignTaskResponse`.  The collaborators held by reference (logger, readers, clients)
appear as effects, not as fields. -/
structure Operator where
  config : NodeConfig
  blsKeypair : KeyPair
  operatorId : OperatorId
  operatorAddr : Address
  credibleSquaringServiceManagerAddr : Address
  deriving DecidableEq, Repr

/-! ## The HTTP exchange with the delegate service -/

/-- Go `mime/multipart.Writer` writing into a `bytes.Buffer`: the boundary it was
created with, the form fields written so far, and whether the closing boundary was
written. -/
structure MultipartWriter where
  boundary : String
  fields : List (String × String)
  closed : Bool
  deriving DecidableEq, Repr

/-- Go `multipart.NewWriter(&requestBody)`; the boundary is picked at random by the
library, so it is an input here. -/
def MultipartWriter.NewWriter (boundary : String) : MultipartWriter :=
  { boundary := boundary, fields := [], closed := false }

/-- Go `multipartWriter.WriteField(name, value)`.  Writing into a `bytes.Buffer`
does not fail, so the error result is always nil and is left out. -/
def MultipartWriter.WriteField (w : MultipartWriter) (name value : String) : MultipartWriter :=
  { w with fields := w.fields ++ [(name, value)] }

/-- Go `multipartWriter.Close()`. -/
def MultipartWriter.Close (w : MultipartWriter) : MultipartWriter :=
  { w with closed := true }

/-- Go `multipartWriter.FormDataContentType()`. -/
def MultipartWriter.FormDataContentType (w : MultipartWriter) : String :=
  "multipart/form-data; boundary=" ++ w.boundary

/-- Go `(*big.Int).String()`: the decimal text of the number. -/
def bigIntString : Int → String
  | Int.ofNat n => Nat.repr n
  | Int.negSucc n => "-" ++ Nat.repr (n + 1)

/-- Go `*http.Request` as built by `http.NewRequest("POST", webapiUrl, &requestBody)`
followed by `req.Header.Set("Content-Type", ...)`.  The body is the multipart form
held in the buffer. -/
structure Request where
  Method : String
  URL : String
  ContentType : String
  Form : List (String × String)
  deriving DecidableEq, Repr

/-- What `io.ReadAll(response.Body)` yields: the bytes read (as text) and the read
error, if any.  With an error the bytes are those read before it. -/
structure ReadAllResult where
  data : String
  err : Option String
  deriving DecidableEq, Repr

/-- Go `*http.Response` as far as the operator looks at it. -/
structure Response where
  StatusCode : Nat
  Body : ReadAllResult
  deriving DecidableEq, Repr

/-- The status codes on which Go `net/http` follows a redirect. -/
inductive RedirectStatus
  /-- Status 301 -/
  | movedPermanently
  /-- Status 302 -/
  | found
  /-- Status 303 -/
  | seeOther
  /-- Status 307 -/
  | temporaryRedirect
  /-- Status 308 -/
  | permanentRedirect
  deriving DecidableEq, Repr

/-- A redirect answer that `client.Do` follows: its status and the URL its `Location`
header resolves to. -/
structure Redirect where
  status : RedirectStatus
  location : String
  deriving DecidableEq, Repr

/-- A request as `client.Do` writes it to the network: method, URL and the form in its
body (`[]` when it has no body). -/
structure Sent where
  Method : String
  URL : String
  Form : List (String × String)
  deriving DecidableEq, Repr

/-- Go `net/http` `redirectBehavior`: the method of the follow-up request and whether
it carries the body of the first request again.  On 301, 302 and 303 every method
but GET and HEAD becomes GET and the body is dropped; on 307 and 308 method and body
are kept (the request built by `http.NewRequest` from a `bytes.Buffer` has `GetBody`). -/
def redirectBehavior (reqMethod : String) : RedirectStatus → String × Bool
  | RedirectStatus.temporaryRedirect => (reqMethod, true)
  | RedirectStatus.permanentRedirect => (reqMethod, true)
  | _ => (if reqMethod != "GET" && reqMethod != "HEAD" then "GET" else reqMethod, false)

/-- The follow-up requests `client.Do` sends for the redirect answers it follows;
`reqMethod` is the method of the request that was answered by the first of them and
`ireq` the first request of the call. -/
def followRedirects (ireq : Request) (reqMethod : String) : List Redirect → List Sent
  | [] => []
  | r :: rest =>
    let next := redirectBehavior reqMethod r.status
    { Method := next.1, URL := r.location, Form := if next.2 then ireq.Form else [] } ::
      followRedirects ireq next.1 rest

/-- All requests one `client.Do(req)` of the zero-value `http.Client` writes to the
network: `req` itself, then one request per redirect answer it follows. -/
def requestsSent (req : Request) (redirects : List Redirect) : List Sent :=
  { Method := req.Method, URL := req.URL, Form := req.Form } ::
    followRedirects req req.Method redirects

/-- What the outside world contributes to one call of `ProcessNewTaskCreatedLog`:
the boundary chosen by `multipart.NewWriter`, the redirect answers that
`client.Do(req)` follows (the default client follows at most nine), and the pair
`(response, err)` it returns in the end.  A network failure is `response = none`
(Go nil) with `err = some _`. -/
structure Exchange where
  boundary : String
  redirects : List Redirect
  response : Option Response
  err : Option String
  deriving DecidableEq, Repr

/-! ## Effects -/

/-- Levels of the `logging.Logger` calls in the file. -/
inductive Level
  | debug
  | info
  | error
  | fatal
  deriving DecidableEq, Repr

/-- Externally visible actions of the operator, in the order the code performs them.
A Go `event.Subscription` is named by a number: the k-th call of
`SubscribeToNewTasks` returns subscription k. -/
inductive Effect
  /-- Go `o.logger.Debug/Info/Infof/Error/Fatal(msg, ...)` -/
  | log (level : Level) (msg : String)
  /-- Go `fmt.Println` / `fmt.Printf` -/
  | print (text : String)
  /-- Go `o.avsReader.IsOperatorRegistered(&bind.CallOpts{}, o.operatorAddr)` -/
  | isOperatorRegistered (addr : Address)
  /-- Go `o.nodeApi.Start()` -/
  | nodeApiStart
  /-- Go `o.metrics.Start(ctx, o.metricsReg)` -/
  | metricsStart
  /-- Go `o.avsSubscriber.SubscribeToNewTasks(o.newTaskCreatedChan)` returning `sub` -/
  | subscribe (sub : Nat)
  /-- Go `sub.Unsubscribe()` -/
  | unsubscribe (sub : Nat)
  /-- The `select` of one loop iteration evaluated `sub.Err()` on this handle and one
  of its communications proceeded -/
  | selectOn (sub : Nat)
  /-- Go `o.metrics.IncNumTasksReceived()` -/
  | incNumTasksReceived
  /-- Go `client.Do(req)`: the call that posts to the delegate service -/
  | httpDo (req : Request)
  /-- A request written to the network inside `client.Do` -/
  | httpSend (s : Sent)
  /-- The deferred `response.Body.Close()` -/
  | bodyClose
  /-- Go `core.GetTaskResponseDigest(taskResponse)` -/
  | getTaskResponseDigest (r : TaskResponse)
  /-- Go `o.blsKeypair.SignMessage(taskResponseHash)` -/
  | signMessage (key : KeyPair) (hash : Digest)
  /-- Go `go o.aggregatorRpcClient.SendSignedTaskResponseToAggregator(signedTaskResponse)`;
  the argument is a pointer, `none` is Go nil -/
  | sendSignedTaskResponseToAggregator (s : Option SignedTaskResponse)
  deriving DecidableEq, Repr

/-- Result of a Go call that either returns or panics. -/
inductive Res (α : Type)
  | ret (a : α)
  | panic (msg : String)
  deriving DecidableEq, Repr

/-- Library functions the operator calls and whose code is outside operator.go.
`GetTaskResponseDigest` is `core.GetTaskResponseDigest` (hash or error),
`SignMessage` is `(*bls.KeyPair).SignMessage`. -/
structure Env where
  GetTaskResponseDigest : TaskResponse → Except String Digest
  SignMessage : KeyPair → Digest → Signature

/-! ## `ProcessNewTaskCreatedLog` -/

/-- Go `Operator.ProcessNewTaskCreatedLog` (operator.go 312-396). -/
def ProcessNewTaskCreatedLog (newTaskCreatedLog : NewTaskCreated) (x : Exchange) :
    List Effect × Res TaskResponse :=
  let webapiUrl := "http://localhost:8000/run_fhe"
  let multipartWriter := MultipartWriter.NewWriter x.boundary
  let clientID := bigIntString newTaskCreatedLog.Task.ComputeRequestClientId
  let multipartWriter := multipartWriter.WriteField "client_id" clientID
  let multipartWriter := multipartWriter.Close
  let req : Request :=
    { Method := "POST", URL := webapiUrl,
      ContentType := multipartWriter.FormDataContentType,
      Form := multipartWriter.fields }
  -- `http.NewRequest` with the constant method and URL above does not fail
  let received : List Effect :=
    [Effect.log Level.debug "Received new task", Effect.log Level.info "Received new task",
      Effect.httpDo req] ++ (requestsSent req x.redirects).map Effect.httpSend
  let doFailed : List Effect :=
    match x.err with
    | some err => [Effect.print ("The HTTP request failed with error " ++ err ++ "\n")]
    | none => []
  match x.response with
  | none =>
    -- `defer response.Body.Close()` evaluates `response.Body` on a nil `*http.Response`
    (received ++ doFailed, Res.panic "runtime error: invalid memory address or nil pointer dereference")
  | some response =>
    let readFailed : List Effect :=
      match response.Body.err with
      | some err => [Effect.print ("Error reading response body: " ++ err)]
      | none => []
    let encryptedLoanApplicationInference := response.Body.data
    let taskResponse : TaskResponse :=
      { ReferenceTaskIndex := newTaskCreatedLog.TaskIndex,
        EncryptedLoanApplicationInference := encryptedLoanApplicationInference }
    (received ++ doFailed ++ readFailed ++
      [Effect.print (encryptedLoanApplicationInference ++ "\n"),
        Effect.print "Returned the response\n", Effect.bodyClose],
      Res.ret taskResponse)

/-! ## `SignTaskResponse` -/

/-- The two results of Go `SignTaskResponse`: `(*aggregator.SignedTaskResponse, error)`. -/
structure SignResult where
  signed : Option SignedTaskResponse
  err : Option String
  deriving DecidableEq, Repr

/-- Go `Operator.SignTaskResponse` (operator.go 398-413). -/
def SignTaskResponse (env : Env) (o : Operator) (taskResponse : TaskResponse) :
    List Effect × SignResult :=
  let entered : List Effect :=
    [Effect.print "Entered SignTaskResponse\n", Effect.getTaskResponseDigest taskResponse]
  match env.GetTaskResponseDigest taskResponse with
  | Except.error err =>
    (entered ++ [Effect.log Level.error
        "Error getting task response header hash. skipping task (this is not expected and should be investigated)"],
      { signed := none, err := some err })
  | Except.ok taskResponseHash =>
    let blsSignature := env.SignMessage o.blsKeypair taskResponseHash
    let signedTaskResponse : SignedTaskResponse :=
      { TaskResponse := taskResponse, BlsSignature := blsSignature, OperatorId := o.operatorId }
    (entered ++ [Effect.signMessage o.blsKeypair taskResponseHash,
        Effect.log Level.debug "Signed task response"],
      { signed := some signedTaskResponse, err := none })

/-! ## `Start` -/

/-- The communication a `select` of the loop proceeds with (operator.go 285-298). -/
inductive SelectCase
  /-- Go `case <-ctx.Done()` -/
  | done
  /-- Go `case err := <-metricsErrChan`; with `EnableMetrics` off nothing ever sends on
  that channel, so the runtime never produces this case then -/
  | metricsErr (err : String)
  /-- Go `case err := <-sub.Err()` -/
  | subErr (err : String)
  /-- Go `case newTaskCreatedLog := <-o.newTaskCreatedChan`, together with what the
  delegate service will answer while this task is processed -/
  | newTask (newTaskCreatedLog : NewTaskCreated) (x : Exchange)
  deriving DecidableEq, Repr

/-- One multiplexed wait: the communications that can proceed and the one the Go
runtime picks.  Go picks one of the ready communications by uniform pseudo-random
selection; the order of the cases in the source gives no priority. -/
structure Wait where
  ready : List SelectCase
  chosen : SelectCase
  deriving DecidableEq, Repr

/-- A wait the Go runtime can produce: the chosen communication is a ready one. -/
def Wait.wellFormed (w : Wait) : Prop := w.chosen ∈ w.ready

instance (w : Wait) : Decidable w.wellFormed :=
  inferInstanceAs (Decidable (w.chosen ∈ w.ready))

/-- Local state of the loop in `Start`: the variable `sub`, and the number of
subscriptions the subscriber has handed out so far. -/
structure LoopState where
  sub : Nat
  nextSub : Nat
  deriving DecidableEq, Repr

/-- How `Start` (or its loop) stands after consuming a schedule. -/
inductive Outcome
  /-- Go `Start` returned this error value (`none` is Go nil) -/
  | returned (err : Option String)
  /-- Go `o.logger.Fatal` ended the process -/
  | fatal
  /-- An unrecovered panic ended the process -/
  | panicked (msg : String)
  /-- The loop is blocked in its `select` in this state: nothing more was ready -/
  | running (st : LoopState)
  deriving DecidableEq, Repr

/-- Modelled from the spec: `AvsSubscriber.SubscribeToNewTasks` (core/chainio, outside
operator.go) establishes a new subscription on every call; the k-th call returns
handle k. -/
def SubscribeToNewTasks (nextSub : Nat) : List Effect × LoopState :=
  ([Effect.subscribe nextSub], { sub := nextSub, nextSub := nextSub + 1 })

/-- One iteration of the `for { select { ... } }` of `Start` (operator.go 284-307),
given the communication the `select` proceeds with. -/
def loopStep (env : Env) (o : Operator) (st : LoopState) (c : SelectCase) :
    List Effect × Outcome :=
  match c with
  | SelectCase.done => ([Effect.selectOn st.sub], Outcome.returned none)
  | SelectCase.metricsErr _ =>
    -- Modelled from the spec: the logger's Fatal aborts the process
    ([Effect.selectOn st.sub, Effect.log Level.fatal "Error in metrics server"], Outcome.fatal)
  | SelectCase.subErr _ =>
    let resub := SubscribeToNewTasks st.nextSub
    ([Effect.selectOn st.sub, Effect.log Level.error "Error in websocket subscription",
        Effect.unsubscribe st.sub] ++ resub.1,
      Outcome.running resub.2)
  | SelectCase.newTask newTaskCreatedLog x =>
    let processed := ProcessNewTaskCreatedLog newTaskCreatedLog x
    match processed.2 with
    | Res.panic msg =>
      ([Effect.selectOn st.sub, Effect.incNumTasksReceived] ++ processed.1, Outcome.panicked msg)
    | Res.ret taskResponse =>
      let signed := SignTaskResponse env o taskResponse
      match signed.2.err with
      | some _ =>
        -- `if err != nil { continue }`
        ([Effect.selectOn st.sub, Effect.incNumTasksReceived] ++ processed.1 ++ signed.1,
          Outcome.running st)
      | none =>
        ([Effect.selectOn st.sub, Effect.incNumTasksReceived] ++ processed.1 ++ signed.1 ++
            [Effect.sendSignedTaskResponseToAggregator signed.2.signed],
          Outcome.running st)

/-- The loop of `Start` run on a schedule: the communications its successive
`select`s proceed with.  When the schedule is used up the loop is blocked in its
`select`. -/
def runLoop (env : Env) (o : Operator) (st : LoopState) : List SelectCase → List Effect × Outcome
  | [] => ([], Outcome.running st)
  | c :: rest =>
    match loopStep env o st c with
    | (tr, Outcome.running st') =>
      let r := runLoop env o st' rest
      (tr ++ r.1, r.2)
    | (tr, out) => (tr, out)

/-- One multiplexed wait of the loop: the step taken with the communication that
the runtime chose among the ready ones. -/
def selectStep (env : Env) (o : Operator) (st : LoopState) (w : Wait) : List Effect × Outcome :=
  loopStep env o st w.chosen

/-- The pair `(bool, error)` returned by `o.avsReader.IsOperatorRegistered`. -/
structure RegistrationReply where
  operatorIsRegistered : Bool
  err : Option String
  deriving DecidableEq, Repr

/-- Go `Operator.Start` (operator.go 255-308). -/
def Start (env : Env) (o : Operator) (reg : RegistrationReply) (schedule : List SelectCase) :
    List Effect × Outcome :=
  let query : List Effect := [Effect.isOperatorRegistered o.operatorAddr]
  match reg.err with
  | some err =>
    (query ++ [Effect.log Level.error "Error checking if operator is registered"],
      Outcome.returned (some err))
  | none =>
    if !reg.operatorIsRegistered then
      (query, Outcome.returned (some
        "operator is not registered. Registering operator using the operator-cli before starting operator"))
    else
      let starting : List Effect := [Effect.log Level.info "Starting operator."]
      let nodeApi : List Effect := if o.config.EnableNodeApi then [Effect.nodeApiStart] else []
      let metrics : List Effect := if o.config.EnableMetrics then [Effect.metricsStart] else []
      let printed : List Effect :=
        [Effect.print "Subscribing to new tasks\n",
          Effect.print (o.credibleSquaringServiceManagerAddr ++ "\n")]
      let first := SubscribeToNewTasks 0
      let r := runLoop env o first.2 schedule
      (query ++ starting ++ nodeApi ++ metrics ++ printed ++ first.1 ++ r.1, r.2)

/-! ## Observations on effect lists -/

/-- The signed responses (pointers) handed to the aggregator client, in order. -/
def dispatched : List Effect → List (Option SignedTaskResponse)
  | [] => []
  | Effect.sendSignedTaskResponseToAggregator s :: rest => s :: dispatched rest
  | _ :: rest => dispatched rest

/-- The requests posted to the delegate service, in order. -/
def delegateCalls : List Effect → List Request
  | [] => []
  | Effect.httpDo req :: rest => req :: delegateCalls rest
  | _ :: rest => delegateCalls rest

/-- The `client.Do` calls a schedule asks for: those of its new-task events, in order. -/
def delegateCallsOf : List SelectCase → List Request
  | [] => []
  | SelectCase.newTask e x :: rest =>
    delegateCalls (ProcessNewTaskCreatedLog e x).1 ++ delegateCallsOf rest
  | _ :: rest => delegateCallsOf rest

/-- Number of new-task events in a schedule. -/
def taskCount : List SelectCase → Nat
  | [] => 0
  | SelectCase.newTask _ _ :: rest => taskCount rest + 1
  | _ :: rest => taskCount rest

/-- The number written by a list of decimal digit characters, most significant
first. -/
def decimalValue (ds : List Char) : Nat :=
  ds.foldl (fun acc c => 10 * acc + (c.toNat - 48)) 0

/-- A decimal numeral: at least one character, digits only, and no leading zero
except in the numeral `0` itself. -/
def isNumeral (ds : List Char) : Bool :=
  !ds.isEmpty && ds.all Char.isDigit && (ds.head? != some '0' || ds.length == 1)

/-- The text `s` is the decimal string of the integer `x`: the numeral of `x` for
`x ≥ 0`, and a minus sign followed by the numeral of `-x` for `x < 0`. -/
def isDecimalOf (s : String) : Int → Bool
  | Int.ofNat n => isNumeral s.data && decimalValue s.data == n
  | Int.negSucc n =>
    match s.data with
    | '-' :: ds => isNumeral ds && decimalValue ds == n + 1
    | _ => false

/-- Number of `SubscribeToNewTasks` calls. -/
def subscribeCount : List Effect → Nat
  | [] => 0
  | Effect.subscribe _ :: rest => subscribeCount rest + 1
  | _ :: rest => subscribeCount rest

/-- Number of subscription-error communications in a schedule. -/
def subErrCount : List SelectCase → Nat
  | [] => 0
  | SelectCase.subErr _ :: rest => subErrCount rest + 1
  | _ :: rest => subErrCount rest

/-- The handles live after a list of effects, starting from the live handles `l`:
a subscribe adds its handle, an unsubscribe removes it. -/
def liveFrom (l : List Nat) : List Effect → List Nat
  | [] => l
  | Effect.subscribe h :: rest => liveFrom (l ++ [h]) rest
  | Effect.unsubscribe h :: rest => liveFrom (l.filter (fun k => k != h)) rest
  | _ :: rest => liveFrom l rest

/-- The handles live after a list of effects performed from the start. -/
def live (tr : List Effect) : List Nat := liveFrom [] tr

/-- The effects `ProcessNewTaskCreatedLog` can perform. -/
def Effect.ofExchange : Effect → Bool
  | Effect.log _ _ => true
  | Effect.print _ => true
  | Effect.httpDo _ => true
  | Effect.httpSend _ => true
  | Effect.bodyClose => true
  | _ => false

/-- An effect that neither creates, nor destroys, nor reads a subscription handle. -/
def Effect.subscriptionFree : Effect → Bool
  | Effect.subscribe _ => false
  | Effect.unsubscribe _ => false
  | Effect.selectOn _ => false
  | _ => true

/-- No handle is used again once it has been unsubscribed: after an `unsubscribe h`
there is neither a `select` reading the error feed of `h` nor a second
`unsubscribe h`. -/
def NoUseAfterUnsubscribe (tr : List Effect) : Prop :=
  ∀ (before : List Effect) (h : Nat) (after : List Effect),
    tr = before ++ Effect.unsubscribe h :: after →
      Effect.selectOn h ∉ after ∧ Effect.unsubscribe h ∉ after

/-- At every moment of a list of effects performed from the live handles `l`, at most
one handle is live. -/
def AtMostOneLive (l : List Nat) (tr : List Effect) : Prop :=
  ∀ (before after : List Effect), tr = before ++ after → (liveFrom l before).length ≤ 1

/-- The effects of `Start` for a registered operator before its first
`SubscribeToNewTasks` call (operator.go 256-280). -/
def startupEffects (o : Operator) : List Effect :=
  [Effect.isOperatorRegistered o.operatorAddr, Effect.log Level.info "Starting operator."] ++
    (if o.config.EnableNodeApi then [Effect.nodeApiStart] else []) ++
    (if o.config.EnableMetrics then [Effect.metricsStart] else []) ++
    [Effect.print "Subscribing to new tasks\n",
      Effect.print (o.credibleSquaringServiceManagerAddr ++ "\n")]

/-! ## Concrete inputs used in scenarios -/

/-- A successful exchange after the given redirects: the delegate answers in the end
with this status and this body, and the body is read to its end. -/
def Exchange.redirected (boundary : String) (redirects : List Redirect) (status : Nat)
    (body : String) (err : Option String) : Exchange :=
  { boundary := boundary, redirects := redirects,
    response := some { StatusCode := status, Body := { data := body, err := none } },
    err := err }

/-- A successful exchange without redirects. -/
def Exchange.answered (boundary : String) (status : Nat) (body : String) (err : Option String) :
    Exchange :=
  Exchange.redirected boundary [] status body err

/-- A network failure: `client.Do` returns a nil response and an error. -/
def Exchange.networkFailure (boundary : String) (err : String) : Exchange :=
  { boundary := boundary, redirects := [], response := none, err := some err }

/-- A new-task event with the given task index and client identifier. -/
def taskEvent (index : Nat) (clientId : Int) : NewTaskCreated :=
  { TaskIndex := index,
    Task := { ComputeRequestClientId := clientId, TaskCreatedBlock := 100,
              QuorumNumbers := [0], QuorumThresholdPercentage := 100 } }

/-- A stand-in for the library calls: the digest fails for task index 9 (a simulated
digest error) and otherwise adds the index to the payload length; signing multiplies
the key with the digest. -/
def scenarioEnv : Env :=
  { GetTaskResponseDigest := fun r =>
      if r.ReferenceTaskIndex = 9 then Except.error "simulated digest error"
      else Except.ok (r.ReferenceTaskIndex + r.EncryptedLoanApplicationInference.length),
    SignMessage := fun k h => { G1Point := k.PrivKey * h } }

/-- An operator with node API and metrics switched on. -/
def scenarioOperator : Operator :=
  { config := { EnableNodeApi := true, EnableMetrics := true },
    blsKeypair := { PrivKey := 3 },
    operatorId := 77,
    operatorAddr := "0xa0Ee7A142d267C1f36714E4a8F75612F20a79720",
    credibleSquaringServiceManagerAddr := "0x9E545E3C0baAB3E08CdfD552C960A1050f373042" }

/-- The reply of the registration query for a registered operator. -/
def registeredReply : RegistrationReply := { operatorIsRegistered := true, err := none }

/-- The reply of the registration query for an operator that is not registered. -/
def unregisteredReply : RegistrationReply := { operatorIsRegistered := false, err := none }

/-- The loop state right after `Start` subscribed for the first time. -/
def initialLoopState : LoopState := { sub := 0, nextSub := 1 }

/-- A wait at which the cancellation signal and a new-task event are both ready and
the runtime picks the new-task event. -/
def cancelledWithTaskReady : Wait :=
  { ready := [SelectCase.done,
              SelectCase.newTask (taskEvent 7 42) (Exchange.answered "xyz" 200 "ABCXYZ" none)],
    chosen := SelectCase.newTask (taskEvent 7 42) (Exchange.answered "xyz" 200 "ABCXYZ" none) }

/-! ## Helper lemmas -/

theorem dispatched_append (a b : List Effect) :
    dispatched (a ++ b) = dispatched a ++ dispatched b := by
  induction a with
  | nil => rfl
  | cons e rest ih => cases e <;> simp [dispatched, ih]

theorem delegateCalls_append (a b : List Effect) :
    delegateCalls (a ++ b) = delegateCalls a ++ delegateCalls b := by
  induction a with
  | nil => rfl
  | cons e rest ih => cases e <;> simp [delegateCalls, ih]

theorem subscribeCount_append (a b : List Effect) :
    subscribeCount (a ++ b) = subscribeCount a + subscribeCount b := by
  induction a with
  | nil => simp [subscribeCount]
  | cons e rest ih =>
    cases e
    all_goals simp [subscribeCount, ih]
    all_goals omega

theorem liveFrom_append (l : List Nat) (a b : List Effect) :
    liveFrom l (a ++ b) = liveFrom (liveFrom l a) b := by
  induction a generalizing l with
  | nil => rfl
  | cons e rest ih => cases e <;> simp [liveFrom, ih]

/-- The effects of `ProcessNewTaskCreatedLog` never include a hand-over to the aggregator. -/
theorem process_ofExchange (e : NewTaskCreated) (x : Exchange) :
    ∀ ef ∈ (ProcessNewTaskCreatedLog e x).1, ef.ofExchange = true := by
  have hall : (ProcessNewTaskCreatedLog e x).1.all Effect.ofExchange = true := by
    rcases x with ⟨b, rs, (_ | ⟨s, d, (_ | re)⟩), (_ | err)⟩ <;>
      simp [ProcessNewTaskCreatedLog, List.all_append, List.all_map, Effect.ofExchange]
  exact List.all_eq_true.mp hall

theorem dispatched_ofExchange (tr : List Effect) (h : ∀ ef ∈ tr, ef.ofExchange = true) :
    dispatched tr = [] := by
  induction tr with
  | nil => rfl
  | cons e rest ih =>
    have he := h e (List.mem_cons_self _ _)
    have hr := ih (fun x hx => h x (List.mem_cons_of_mem _ hx))
    cases e <;> simp [Effect.ofExchange] at he <;> simp [dispatched, hr]

theorem delegateCalls_map_httpSend (l : List Sent) :
    delegateCalls (l.map Effect.httpSend) = [] := by
  induction l with
  | nil => rfl
  | cons a rest ih => simp [delegateCalls, ih]

theorem dispatched_process (e : NewTaskCreated) (x : Exchange) :
    dispatched (ProcessNewTaskCreatedLog e x).1 = [] :=
  dispatched_ofExchange _ (process_ofExchange e x)

/-- Whatever the delegate answers, `ProcessNewTaskCreatedLog` calls `client.Do` exactly
once, with the POST request built from the event. -/
theorem delegateCalls_process (e : NewTaskCreated) (x : Exchange) :
    delegateCalls (ProcessNewTaskCreatedLog e x).1 =
      [{ Method := "POST", URL := "http://localhost:8000/run_fhe",
         ContentType := "multipart/form-data; boundary=" ++ x.boundary,
         Form := [("client_id", bigIntString e.Task.ComputeRequestClientId)] }] := by
  rcases x with ⟨b, rs, (_ | ⟨s, d, (_ | re)⟩), (_ | err)⟩ <;>
    simp [ProcessNewTaskCreatedLog, delegateCalls, delegateCalls_append,
      delegateCalls_map_httpSend, MultipartWriter.NewWriter, MultipartWriter.WriteField,
      MultipartWriter.Close, MultipartWriter.FormDataContentType]

/-- The effects of `SignTaskResponse` never include a hand-over to the aggregator. -/
theorem dispatched_sign (env : Env) (o : Operator) (r : TaskResponse) :
    dispatched (SignTaskResponse env o r).1 = [] := by
  unfold SignTaskResponse
  cases env.GetTaskResponseDigest r <;> simp [dispatched]

/-- When `ProcessNewTaskCreatedLog` returns, the response carries the task index of the event. -/
theorem process_ret_index (e : NewTaskCreated) (x : Exchange) (r : TaskResponse)
    (h : (ProcessNewTaskCreatedLog e x).2 = Res.ret r) :
    r.ReferenceTaskIndex = e.TaskIndex := by
  unfold ProcessNewTaskCreatedLog at h
  rcases x with ⟨b, rs, resp, err⟩
  cases resp with
  | none => simp at h
  | some resp =>
    simp at h
    rw [← h]

/-- Whenever `client.Do` hands back a response (whatever its status, whatever the
outcome of reading its body, and whether or not it also reports an error),
`ProcessNewTaskCreatedLog` returns the task index with the bytes that were read. -/
theorem process_returns_with_response (e : NewTaskCreated) (boundary : String)
    (redirects : List Redirect) (response : Response) (err : Option String) :
    (ProcessNewTaskCreatedLog e
        { boundary := boundary, redirects := redirects, response := some response, err := err }).2 =
      Res.ret { ReferenceTaskIndex := e.TaskIndex,
                EncryptedLoanApplicationInference := response.Body.data } := rfl

/-- Whenever `client.Do` hands back a nil response, `ProcessNewTaskCreatedLog` panics. -/
theorem process_panics_without_response (e : NewTaskCreated) (boundary : String)
    (redirects : List Redirect) (err : Option String) :
    (ProcessNewTaskCreatedLog e
        { boundary := boundary, redirects := redirects, response := none, err := err }).2 =
      Res.panic "runtime error: invalid memory address or nil pointer dereference" := rfl

/-- A signed response returned by `SignTaskResponse` embeds the response it was given. -/
theorem sign_some_embeds (env : Env) (o : Operator) (r : TaskResponse) (s : SignedTaskResponse)
    (h : (SignTaskResponse env o r).2.signed = some s) : s.TaskResponse = r := by
  unfold SignTaskResponse at h
  cases hd : env.GetTaskResponseDigest r with
  | error err => simp [hd] at h
  | ok hash =>
    simp [hd] at h
    rw [← h]

/-- A new-task iteration in which the delegate call panics. -/
theorem loopStep_newTask_panic (env : Env) (o : Operator) (st : LoopState)
    (e : NewTaskCreated) (x : Exchange) (msg : String)
    (hp : (ProcessNewTaskCreatedLog e x).2 = Res.panic msg) :
    loopStep env o st (SelectCase.newTask e x) =
      ([Effect.selectOn st.sub, Effect.incNumTasksReceived] ++ (ProcessNewTaskCreatedLog e x).1,
        Outcome.panicked msg) := by
  simp only [loopStep, hp]

/-- A new-task iteration in which signing succeeds: the signed response is handed over. -/
theorem loopStep_newTask_dispatch (env : Env) (o : Operator) (st : LoopState)
    (e : NewTaskCreated) (x : Exchange) (r : TaskResponse)
    (hp : (ProcessNewTaskCreatedLog e x).2 = Res.ret r)
    (he : (SignTaskResponse env o r).2.err = none) :
    loopStep env o st (SelectCase.newTask e x) =
      ([Effect.selectOn st.sub, Effect.incNumTasksReceived] ++ (ProcessNewTaskCreatedLog e x).1 ++
          (SignTaskResponse env o r).1 ++
          [Effect.sendSignedTaskResponseToAggregator (SignTaskResponse env o r).2.signed],
        Outcome.running st) := by
  simp only [loopStep, hp, he]

/-- A new-task iteration in which signing returns an error: the task is skipped. -/
theorem loopStep_newTask_skip (env : Env) (o : Operator) (st : LoopState)
    (e : NewTaskCreated) (x : Exchange) (r : TaskResponse) (err : String)
    (hp : (ProcessNewTaskCreatedLog e x).2 = Res.ret r)
    (he : (SignTaskResponse env o r).2.err = some err) :
    loopStep env o st (SelectCase.newTask e x) =
      ([Effect.selectOn st.sub, Effect.incNumTasksReceived] ++ (ProcessNewTaskCreatedLog e x).1 ++
          (SignTaskResponse env o r).1,
        Outcome.running st) := by
  simp only [loopStep, hp, he]

/-- The two results of `SignTaskResponse` are never both nil and never both set. -/
theorem sign_results (env : Env) (o : Operator) (r : TaskResponse) :
    ((SignTaskResponse env o r).2.err = none ∧ ∃ s, (SignTaskResponse env o r).2.signed = some s) ∨
      ((SignTaskResponse env o r).2.signed = none ∧ ∃ err, (SignTaskResponse env o r).2.err = some err) := by
  unfold SignTaskResponse
  cases env.GetTaskResponseDigest r <;> simp

/-- The first step decides a run: a step that leaves the loop running is followed by
the run of the remaining schedule from the new state. -/
theorem runLoop_cons_running (env : Env) (o : Operator) (st st1 : LoopState) (c : SelectCase)
    (rest : List SelectCase) (tr : List Effect)
    (h : loopStep env o st c = (tr, Outcome.running st1)) :
    runLoop env o st (c :: rest) =
      (tr ++ (runLoop env o st1 rest).1, (runLoop env o st1 rest).2) := by
  simp only [runLoop, h]

/-- A step that ends the loop ends the run: the remaining schedule is not consumed. -/
theorem runLoop_cons_stop (env : Env) (o : Operator) (st : LoopState) (c : SelectCase)
    (rest : List SelectCase) (tr : List Effect) (out : Outcome)
    (h : loopStep env o st c = (tr, out)) (hstop : ∀ st1, out ≠ Outcome.running st1) :
    runLoop env o st (c :: rest) = (tr, out) := by
  cases out with
  | running st1 => exact absurd rfl (hstop st1)
  | returned e => simp only [runLoop, h]
  | fatal => simp only [runLoop, h]
  | panicked m => simp only [runLoop, h]

/-- A run that is still running after a schedule continues with the next schedule. -/
theorem runLoop_append (env : Env) (o : Operator) (s t : List SelectCase) :
    ∀ (st st1 : LoopState) (tr : List Effect),
      runLoop env o st s = (tr, Outcome.running st1) →
      runLoop env o st (s ++ t) = (tr ++ (runLoop env o st1 t).1, (runLoop env o st1 t).2) := by
  induction s with
  | nil =>
    intro st st1 tr h
    simp only [runLoop, Prod.mk.injEq, Outcome.running.injEq] at h
    obtain ⟨h1, h2⟩ := h
    subst h1 h2
    simp
  | cons c rest ih =>
    intro st st1 tr h
    rcases hstep : loopStep env o st c with ⟨tr0, out⟩
    cases out with
    | running st2 =>
      rw [runLoop_cons_running env o st st2 c rest tr0 hstep] at h
      simp only [Prod.mk.injEq] at h
      obtain ⟨h1, h2⟩ := h
      have hrest : runLoop env o st2 rest = ((runLoop env o st2 rest).1, Outcome.running st1) := by
        rw [← h2]
      have := ih st2 st1 _ hrest
      rw [List.cons_append, runLoop_cons_running env o st st2 c (rest ++ t) tr0 hstep, this, ← h1]
      simp
    | returned e =>
      rw [runLoop_cons_stop env o st c rest tr0 _ hstep (by intro st1; simp)] at h
      simp at h
    | fatal =>
      rw [runLoop_cons_stop env o st c rest tr0 _ hstep (by intro st1; simp)] at h
      simp at h
    | panicked m =>
      rw [runLoop_cons_stop env o st c rest tr0 _ hstep (by intro st1; simp)] at h
      simp at h

/-! ## Subscription handles along a run -/

theorem free_not_mem (body : List Effect) (hfree : ∀ e ∈ body, e.subscriptionFree = true)
    (h : Nat) :
    Effect.selectOn h ∉ body ∧ Effect.unsubscribe h ∉ body ∧ Effect.subscribe h ∉ body := by
  refine ⟨?_, ?_, ?_⟩ <;>
  · intro hm
    have := hfree _ hm
    simp [Effect.subscriptionFree] at this

theorem process_free (e : NewTaskCreated) (x : Exchange) :
    ∀ ef ∈ (ProcessNewTaskCreatedLog e x).1, ef.subscriptionFree = true := by
  intro ef hm
  have := process_ofExchange e x ef hm
  cases ef <;> simp [Effect.ofExchange] at this <;> rfl

theorem sign_free (env : Env) (o : Operator) (r : TaskResponse) :
    ∀ ef ∈ (SignTaskResponse env o r).1, ef.subscriptionFree = true := by
  have hall : (SignTaskResponse env o r).1.all Effect.subscriptionFree = true := by
    unfold SignTaskResponse
    cases env.GetTaskResponseDigest r <;> rfl
  exact List.all_eq_true.mp hall

theorem subscribeCount_free (body : List Effect)
    (hfree : ∀ e ∈ body, e.subscriptionFree = true) : subscribeCount body = 0 := by
  induction body with
  | nil => rfl
  | cons e rest ih =>
    have he := hfree e (List.mem_cons_self _ _)
    have hr := ih (fun x hx => hfree x (List.mem_cons_of_mem _ hx))
    cases e <;> simp [Effect.subscriptionFree] at he <;> simp [subscribeCount, hr]

theorem liveFrom_free (l : List Nat) (body : List Effect)
    (hfree : ∀ e ∈ body, e.subscriptionFree = true) : liveFrom l body = l := by
  induction body with
  | nil => rfl
  | cons e rest ih =>
    have he := hfree e (List.mem_cons_self _ _)
    have hr := ih (fun x hx => hfree x (List.mem_cons_of_mem _ hx))
    cases e <;> simp [Effect.subscriptionFree] at he <;> simp [liveFrom, hr]

/-- The shape of one loop iteration: either the handle is read and the rest of the
iteration leaves the subscription alone (and the state unchanged when the loop goes
on), or the iteration handles a subscription error and resubscribes. -/
theorem loopStep_shape (env : Env) (o : Operator) (st : LoopState) (c : SelectCase) :
    (∃ body, (∀ e ∈ body, e.subscriptionFree = true) ∧
        (loopStep env o st c).1 = Effect.selectOn st.sub :: body ∧
        ((loopStep env o st c).2 = Outcome.running st ∨
          ∀ st1, (loopStep env o st c).2 ≠ Outcome.running st1) ∧
        subErrCount [c] = 0) ∨
      (∃ err, c = SelectCase.subErr err ∧
        loopStep env o st c =
          ([Effect.selectOn st.sub, Effect.log Level.error "Error in websocket subscription",
            Effect.unsubscribe st.sub, Effect.subscribe st.nextSub],
            Outcome.running { sub := st.nextSub, nextSub := st.nextSub + 1 })) := by
  cases c with
  | done =>
    left
    exact ⟨[], by simp, rfl, Or.inr (by intro st1; simp [loopStep]), rfl⟩
  | metricsErr err =>
    left
    refine ⟨[Effect.log Level.fatal "Error in metrics server"], ?_, rfl,
      Or.inr (by intro st1; simp [loopStep]), rfl⟩
    intro e he
    simp at he
    subst he
    rfl
  | subErr err =>
    right
    exact ⟨err, rfl, rfl⟩
  | newTask e x =>
    left
    cases hp : (ProcessNewTaskCreatedLog e x).2 with
    | panic msg =>
      refine ⟨Effect.incNumTasksReceived :: (ProcessNewTaskCreatedLog e x).1, ?_, ?_, ?_, rfl⟩
      · intro ef hm
        rcases List.mem_cons.mp hm with h | h
        · subst h; rfl
        · exact process_free e x ef h
      · rw [loopStep_newTask_panic env o st e x msg hp]
        rfl
      · right
        intro st1
        rw [loopStep_newTask_panic env o st e x msg hp]
        simp
    | ret r =>
      cases he : (SignTaskResponse env o r).2.err with
      | some err =>
        refine ⟨Effect.incNumTasksReceived :: ((ProcessNewTaskCreatedLog e x).1 ++
          (SignTaskResponse env o r).1), ?_, ?_, ?_, rfl⟩
        · intro ef hm
          rcases List.mem_cons.mp hm with h | h
          · subst h; rfl
          · rcases List.mem_append.mp h with h | h
            · exact process_free e x ef h
            · exact sign_free env o r ef h
        · rw [loopStep_newTask_skip env o st e x r err hp he]
          simp
        · left
          rw [loopStep_newTask_skip env o st e x r err hp he]
      | none =>
        refine ⟨Effect.incNumTasksReceived :: ((ProcessNewTaskCreatedLog e x).1 ++
          (SignTaskResponse env o r).1 ++
          [Effect.sendSignedTaskResponseToAggregator (SignTaskResponse env o r).2.signed]),
          ?_, ?_, ?_, rfl⟩
        · intro ef hm
          rcases List.mem_cons.mp hm with h | h
          · subst h; rfl
          · rcases List.mem_append.mp h with h | h
            · rcases List.mem_append.mp h with h | h
              · exact process_free e x ef h
              · exact sign_free env o r ef h
            · simp at h
              subst h
              rfl
        · rw [loopStep_newTask_dispatch env o st e x r hp he]
          simp
        · left
          rw [loopStep_newTask_dispatch env o st e x r hp he]

/-- The three ways a run can begin. -/
theorem runLoop_cons_cases (env : Env) (o : Operator) (st : LoopState) (c : SelectCase)
    (rest : List SelectCase) :
    (∃ body, (∀ e ∈ body, e.subscriptionFree = true) ∧
        runLoop env o st (c :: rest) =
          (Effect.selectOn st.sub :: body ++ (runLoop env o st rest).1,
            (runLoop env o st rest).2) ∧
        subErrCount (c :: rest) = subErrCount rest) ∨
      (∃ body out, (∀ e ∈ body, e.subscriptionFree = true) ∧
        (∀ st1, out ≠ Outcome.running st1) ∧
        runLoop env o st (c :: rest) = (Effect.selectOn st.sub :: body, out)) ∨
      (∃ err, c = SelectCase.subErr err ∧
        runLoop env o st (c :: rest) =
          ([Effect.selectOn st.sub, Effect.log Level.error "Error in websocket subscription",
            Effect.unsubscribe st.sub, Effect.subscribe st.nextSub] ++
              (runLoop env o { sub := st.nextSub, nextSub := st.nextSub + 1 } rest).1,
            (runLoop env o { sub := st.nextSub, nextSub := st.nextSub + 1 } rest).2)) := by
  rcases loopStep_shape env o st c with ⟨body, hfree, htr, hout | hout, hc⟩ | ⟨err, hc, hstep⟩
  · left
    refine ⟨body, hfree, ?_, ?_⟩
    · exact runLoop_cons_running env o st st c rest _ (Prod.ext htr hout)
    · cases c <;> simp [subErrCount] at hc ⊢
  · right; left
    exact ⟨body, (loopStep env o st c).2, hfree, hout,
      runLoop_cons_stop env o st c rest _ _ (Prod.ext htr rfl) hout⟩
  · right; right
    exact ⟨err, hc, runLoop_cons_running env o st _ c rest _ hstep⟩

/-- While the loop is running, `SubscribeToNewTasks` has been called once per
subscription error handled. -/
theorem runLoop_subscribeCount (env : Env) (o : Operator) (s : List SelectCase) :
    ∀ (st st1 : LoopState) (tr : List Effect),
      runLoop env o st s = (tr, Outcome.running st1) → subscribeCount tr = subErrCount s := by
  induction s with
  | nil =>
    intro st st1 tr h
    simp only [runLoop, Prod.mk.injEq] at h
    rw [← h.1]
    rfl
  | cons c rest ih =>
    intro st st1 tr h
    rcases runLoop_cons_cases env o st c rest with
      ⟨body, hfree, hrun, hc⟩ | ⟨body, out, hfree, hout, hrun⟩ | ⟨err, hc, hrun⟩
    · rw [hrun] at h
      simp only [Prod.mk.injEq] at h
      have hrest : runLoop env o st rest = ((runLoop env o st rest).1, Outcome.running st1) := by
        rw [← h.2]
      have := ih st st1 _ hrest
      rw [← h.1, hc, List.cons_append, ← this]
      simp [subscribeCount, subscribeCount_append, subscribeCount_free body hfree]
    · rw [hrun] at h
      simp only [Prod.mk.injEq] at h
      exact absurd h.2 (hout st1)
    · rw [hrun] at h
      simp only [Prod.mk.injEq] at h
      have hrest : runLoop env o { sub := st.nextSub, nextSub := st.nextSub + 1 } rest =
          ((runLoop env o { sub := st.nextSub, nextSub := st.nextSub + 1 } rest).1,
            Outcome.running st1) := by
        rw [← h.2]
      have := ih _ st1 _ hrest
      rw [← h.1, hc, subscribeCount_append, this]
      simp [subscribeCount, subErrCount]
      omega

theorem atMostOneLive_nil (l : List Nat) (hl : l.length ≤ 1) : AtMostOneLive l [] := by
  intro before after h
  have hb : before = [] := by
    cases before with
    | nil => rfl
    | cons x xs => simp at h
  subst hb
  exact hl

theorem atMostOneLive_cons (l : List Nat) (e : Effect) (tr : List Effect)
    (hl : l.length ≤ 1) (h : AtMostOneLive (liveFrom l [e]) tr) : AtMostOneLive l (e :: tr) := by
  intro before after heq
  cases before with
  | nil => exact hl
  | cons x xs =>
    simp only [List.cons_append, List.cons.injEq] at heq
    obtain ⟨hx, hxs⟩ := heq
    subst hx
    have := h xs after hxs
    rw [← liveFrom_append] at this
    exact this

theorem atMostOneLive_free_append (l : List Nat) (body tr : List Effect)
    (hfree : ∀ e ∈ body, e.subscriptionFree = true) (hl : l.length ≤ 1)
    (h : AtMostOneLive l tr) : AtMostOneLive l (body ++ tr) := by
  induction body with
  | nil => exact h
  | cons e rest ih =>
    have hr := ih (fun x hx => hfree x (List.mem_cons_of_mem _ hx))
    apply atMostOneLive_cons l e (rest ++ tr) hl
    rw [liveFrom_free l [e]]
    · exact hr
    · intro x hx
      simp at hx
      subst hx
      exact hfree _ (List.mem_cons_self _ _)

/-- Along a run that starts with exactly the current handle live, at most one handle
is live at every moment. -/
theorem runLoop_atMostOneLive (env : Env) (o : Operator) (s : List SelectCase) :
    ∀ st : LoopState, AtMostOneLive [st.sub] (runLoop env o st s).1 := by
  induction s with
  | nil =>
    intro st
    exact atMostOneLive_nil _ (by simp)
  | cons c rest ih =>
    intro st
    rcases runLoop_cons_cases env o st c rest with
      ⟨body, hfree, hrun, hc⟩ | ⟨body, out, hfree, hout, hrun⟩ | ⟨err, hc, hrun⟩
    · rw [hrun]
      apply atMostOneLive_cons _ _ _ (by simp)
      simp only [liveFrom]
      exact atMostOneLive_free_append _ _ _ hfree (by simp) (ih st)
    · rw [hrun]
      apply atMostOneLive_cons _ _ _ (by simp)
      simp only [liveFrom]
      have := atMostOneLive_free_append [st.sub] body [] hfree (by simp)
        (atMostOneLive_nil _ (by simp))
      simpa using this
    · rw [hrun]
      apply atMostOneLive_cons _ _ _ (by simp)
      apply atMostOneLive_cons _ _ _ (by simp [liveFrom])
      apply atMostOneLive_cons _ _ _ (by simp [liveFrom])
      apply atMostOneLive_cons _ _ _ (by simp [liveFrom])
      have := ih { sub := st.nextSub, nextSub := st.nextSub + 1 }
      simpa [liveFrom] using this

/-- While the loop is running, the live handle is the current one. -/
theorem runLoop_live_running (env : Env) (o : Operator) (s : List SelectCase) :
    ∀ (st st1 : LoopState) (tr : List Effect),
      runLoop env o st s = (tr, Outcome.running st1) → liveFrom [st.sub] tr = [st1.sub] := by
  induction s with
  | nil =>
    intro st st1 tr h
    simp only [runLoop, Prod.mk.injEq, Outcome.running.injEq] at h
    rw [← h.1, ← h.2]
    rfl
  | cons c rest ih =>
    intro st st1 tr h
    rcases runLoop_cons_cases env o st c rest with
      ⟨body, hfree, hrun, hc⟩ | ⟨body, out, hfree, hout, hrun⟩ | ⟨err, hc, hrun⟩
    · rw [hrun] at h
      simp only [Prod.mk.injEq] at h
      have hrest : runLoop env o st rest = ((runLoop env o st rest).1, Outcome.running st1) := by
        rw [← h.2]
      rw [← h.1, List.cons_append]
      simp only [liveFrom]
      rw [liveFrom_append, liveFrom_free _ body hfree]
      exact ih st st1 _ hrest
    · rw [hrun] at h
      simp only [Prod.mk.injEq] at h
      exact absurd h.2 (hout st1)
    · rw [hrun] at h
      simp only [Prod.mk.injEq] at h
      have hrest : runLoop env o { sub := st.nextSub, nextSub := st.nextSub + 1 } rest =
          ((runLoop env o { sub := st.nextSub, nextSub := st.nextSub + 1 } rest).1,
            Outcome.running st1) := by
        rw [← h.2]
      have := ih _ st1 _ hrest
      rw [← h.1]
      simpa [liveFrom] using this

theorem noUse_nil : NoUseAfterUnsubscribe [] := by
  intro before h after heq
  cases before <;> simp at heq

theorem noUse_cons_other (e : Effect) (tr : List Effect) (he : ∀ h, e ≠ Effect.unsubscribe h)
    (htr : NoUseAfterUnsubscribe tr) : NoUseAfterUnsubscribe (e :: tr) := by
  intro before h after heq
  cases before with
  | nil =>
    simp only [List.nil_append, List.cons.injEq] at heq
    exact absurd heq.1 (he h)
  | cons x xs =>
    simp only [List.cons_append, List.cons.injEq] at heq
    exact htr xs h after heq.2

theorem noUse_cons_unsubscribe (h : Nat) (tr : List Effect)
    (h1 : Effect.selectOn h ∉ tr) (h2 : Effect.unsubscribe h ∉ tr)
    (htr : NoUseAfterUnsubscribe tr) : NoUseAfterUnsubscribe (Effect.unsubscribe h :: tr) := by
  intro before k after heq
  cases before with
  | nil =>
    simp only [List.nil_append, List.cons.injEq, Effect.unsubscribe.injEq] at heq
    obtain ⟨hk, ha⟩ := heq
    subst hk ha
    exact ⟨h1, h2⟩
  | cons x xs =>
    simp only [List.cons_append, List.cons.injEq] at heq
    exact htr xs k after heq.2

theorem noUse_free_append (body tr : List Effect)
    (hfree : ∀ e ∈ body, e.subscriptionFree = true) (htr : NoUseAfterUnsubscribe tr) :
    NoUseAfterUnsubscribe (body ++ tr) := by
  induction body with
  | nil => exact htr
  | cons e rest ih =>
    have hr := ih (fun x hx => hfree x (List.mem_cons_of_mem _ hx))
    apply noUse_cons_other e (rest ++ tr) _ hr
    intro h he
    have := hfree e (List.mem_cons_self _ _)
    rw [he] at this
    simp [Effect.subscriptionFree] at this

/-- Every handle read or unsubscribed during a run is the current handle of the start
state or a handle handed out later. -/
theorem runLoop_uses_lower (env : Env) (o : Operator) (s : List SelectCase) :
    ∀ (st : LoopState) (h : Nat), st.sub < st.nextSub →
      (Effect.selectOn h ∈ (runLoop env o st s).1 ∨
        Effect.unsubscribe h ∈ (runLoop env o st s).1) →
      h = st.sub ∨ st.nextSub ≤ h := by
  induction s with
  | nil =>
    intro st h _ hm
    simp [runLoop] at hm
  | cons c rest ih =>
    intro st h hlt hm
    rcases runLoop_cons_cases env o st c rest with
      ⟨body, hfree, hrun, hc⟩ | ⟨body, out, hfree, hout, hrun⟩ | ⟨err, hc, hrun⟩
    · rw [hrun] at hm
      have hb := free_not_mem body hfree h
      simp only [List.cons_append, List.mem_cons, List.mem_append, Effect.selectOn.injEq,
        reduceCtorEq, false_or] at hm
      rcases hm with (hm | hm | hm) | (hm | hm)
      · exact Or.inl hm
      · exact absurd hm hb.1
      · exact ih st h hlt (Or.inl hm)
      · exact absurd hm hb.2.1
      · exact ih st h hlt (Or.inr hm)
    · rw [hrun] at hm
      have hb := free_not_mem body hfree h
      simp only [List.mem_cons, Effect.selectOn.injEq, reduceCtorEq, false_or] at hm
      rcases hm with (hm | hm) | hm
      · exact Or.inl hm
      · exact absurd hm hb.1
      · exact absurd hm hb.2.1
    · rw [hrun] at hm
      have hrec := ih { sub := st.nextSub, nextSub := st.nextSub + 1 } h (by simp)
      simp only [List.cons_append, List.nil_append, List.mem_cons, Effect.selectOn.injEq,
        Effect.unsubscribe.injEq, reduceCtorEq, false_or] at hm
      rcases hm with (hm | hm) | (hm | hm)
      · exact Or.inl hm
      · rcases hrec (Or.inl hm) with h1 | h1
        · right; simp at h1; omega
        · right; simp at h1; omega
      · exact Or.inl hm
      · rcases hrec (Or.inr hm) with h1 | h1
        · right; simp at h1; omega
        · right; simp at h1; omega

/-- In a run no handle is used again after it was unsubscribed. -/
theorem runLoop_noUse (env : Env) (o : Operator) (s : List SelectCase) :
    ∀ st : LoopState, st.sub < st.nextSub →
      NoUseAfterUnsubscribe (runLoop env o st s).1 := by
  induction s with
  | nil =>
    intro st _
    exact noUse_nil
  | cons c rest ih =>
    intro st hlt
    rcases runLoop_cons_cases env o st c rest with
      ⟨body, hfree, hrun, hc⟩ | ⟨body, out, hfree, hout, hrun⟩ | ⟨err, hc, hrun⟩
    · rw [hrun, List.cons_append]
      apply noUse_cons_other _ _ (by intro h; simp)
      exact noUse_free_append body _ hfree (ih st hlt)
    · rw [hrun]
      apply noUse_cons_other _ _ (by intro h; simp)
      have := noUse_free_append body [] hfree noUse_nil
      simpa using this
    · rw [hrun]
      have hrec := ih { sub := st.nextSub, nextSub := st.nextSub + 1 } (by simp)
      have hlow := runLoop_uses_lower env o rest
        { sub := st.nextSub, nextSub := st.nextSub + 1 } st.sub (by simp)
      simp only [List.cons_append, List.nil_append]
      apply noUse_cons_other _ _ (by intro h; simp)
      apply noUse_cons_other _ _ (by intro h; simp)
      apply noUse_cons_unsubscribe
      · intro hm
        simp only [List.mem_cons, reduceCtorEq, false_or] at hm
        rcases hlow (Or.inl hm) with h1 | h1 <;> simp at h1 <;> omega
      · intro hm
        simp only [List.mem_cons, reduceCtorEq, false_or] at hm
        rcases hlow (Or.inr hm) with h1 | h1 <;> simp at h1 <;> omega
      · exact noUse_cons_other _ _ (by intro h; simp) hrec

/-- While the loop is running, the current handle has not been unsubscribed: every
handle unsubscribed so far is older than the current one. -/
theorem runLoop_unsubscribed_older (env : Env) (o : Operator) (s : List SelectCase) :
    ∀ (st st1 : LoopState) (tr : List Effect), st.sub < st.nextSub →
      runLoop env o st s = (tr, Outcome.running st1) →
      st.sub ≤ st1.sub ∧ ∀ h, Effect.unsubscribe h ∈ tr → h < st1.sub := by
  induction s with
  | nil =>
    intro st st1 tr _ h
    simp only [runLoop, Prod.mk.injEq, Outcome.running.injEq] at h
    rw [← h.1, ← h.2]
    simp
  | cons c rest ih =>
    intro st st1 tr hlt h
    rcases runLoop_cons_cases env o st c rest with
      ⟨body, hfree, hrun, hc⟩ | ⟨body, out, hfree, hout, hrun⟩ | ⟨err, hc, hrun⟩
    · rw [hrun] at h
      simp only [Prod.mk.injEq] at h
      have hrest : runLoop env o st rest = ((runLoop env o st rest).1, Outcome.running st1) := by
        rw [← h.2]
      obtain ⟨h1, h2⟩ := ih st st1 _ hlt hrest
      refine ⟨h1, ?_⟩
      intro k hk
      rw [← h.1] at hk
      simp only [List.cons_append, List.mem_cons, List.mem_append, reduceCtorEq, false_or] at hk
      rcases hk with hk | hk
      · exact absurd hk (free_not_mem body hfree k).2.1
      · exact h2 k hk
    · rw [hrun] at h
      simp only [Prod.mk.injEq] at h
      exact absurd h.2 (hout st1)
    · rw [hrun] at h
      simp only [Prod.mk.injEq] at h
      have hrest : runLoop env o { sub := st.nextSub, nextSub := st.nextSub + 1 } rest =
          ((runLoop env o { sub := st.nextSub, nextSub := st.nextSub + 1 } rest).1,
            Outcome.running st1) := by
        rw [← h.2]
      obtain ⟨h1, h2⟩ := ih _ st1 _ (by simp) hrest
      simp only at h1
      refine ⟨by omega, ?_⟩
      intro k hk
      rw [← h.1] at hk
      simp only [List.cons_append, List.nil_append, List.mem_cons, Effect.unsubscribe.injEq,
        reduceCtorEq, false_or] at hk
      rcases hk with hk | hk
      · omega
      · exact h2 k hk

/-- For a registered operator `Start` performs its startup effects, subscribes for the
first time and runs the loop from the initial loop state. -/
theorem Start_registered (env : Env) (o : Operator) (s : List SelectCase) :
    Start env o registeredReply s =
      (startupEffects o ++ Effect.subscribe 0 :: (runLoop env o initialLoopState s).1,
        (runLoop env o initialLoopState s).2) := by
  simp [Start, registeredReply, startupEffects, SubscribeToNewTasks, initialLoopState]

theorem startupEffects_free (o : Operator) :
    ∀ e ∈ startupEffects o, e.subscriptionFree = true := by
  have hall : (startupEffects o).all Effect.subscriptionFree = true := by
    unfold startupEffects
    cases o.config.EnableNodeApi <;> cases o.config.EnableMetrics <;> rfl
  exact List.all_eq_true.mp hall

/-! ## Decimal strings -/

/-- The decimal-string test accepts the numeral of a number and rejects leading zeros,
a missing or misplaced sign, the empty text and other characters. -/
theorem isDecimalOf_examples :
    isDecimalOf "42" 42 = true ∧ isDecimalOf "0" 0 = true ∧ isDecimalOf "-42" (-42) = true ∧
      isDecimalOf "042" 42 = false ∧ isDecimalOf "42" (-42) = false ∧
      isDecimalOf "-42" 42 = false ∧ isDecimalOf "" 0 = false ∧ isDecimalOf "-0" 0 = false ∧
      isDecimalOf "4 2" 42 = false ∧ isDecimalOf "43" 42 = false := by
  decide

/-! ## Requests on the network -/

theorem delegateCalls_sign (env : Env) (o : Operator) (r : TaskResponse) :
    delegateCalls (SignTaskResponse env o r).1 = [] := by
  unfold SignTaskResponse
  cases env.GetTaskResponseDigest r <;> rfl

theorem delegateCalls_startupEffects (o : Operator) : delegateCalls (startupEffects o) = [] := by
  unfold startupEffects
  cases o.config.EnableNodeApi <;> cases o.config.EnableMetrics <;> rfl

/-- One loop iteration calls the delegate exactly as often as its communication asks
for: once for a new-task event, not at all otherwise. -/
theorem delegateCalls_loopStep (env : Env) (o : Operator) (st : LoopState) (c : SelectCase) :
    delegateCalls (loopStep env o st c).1 = delegateCallsOf [c] := by
  cases c with
  | done => rfl
  | metricsErr err => rfl
  | subErr err => rfl
  | newTask e x =>
    cases hp : (ProcessNewTaskCreatedLog e x).2 with
    | panic msg =>
      rw [loopStep_newTask_panic env o st e x msg hp]
      simp [delegateCalls, delegateCallsOf]
    | ret r =>
      cases he : (SignTaskResponse env o r).2.err with
      | some err =>
        rw [loopStep_newTask_skip env o st e x r err hp he]
        simp [delegateCalls, delegateCallsOf, delegateCalls_append, delegateCalls_sign]
      | none =>
        rw [loopStep_newTask_dispatch env o st e x r hp he]
        simp [delegateCalls, delegateCallsOf, delegateCalls_append, delegateCalls_sign]

theorem delegateCallsOf_cons (c : SelectCase) (rest : List SelectCase) :
    delegateCallsOf (c :: rest) = delegateCallsOf [c] ++ delegateCallsOf rest := by
  cases c <;> simp [delegateCallsOf]

theorem delegateCallsOf_length (s : List SelectCase) :
    (delegateCallsOf s).length = taskCount s := by
  induction s with
  | nil => rfl
  | cons c rest ih =>
    cases c <;> simp [delegateCallsOf, taskCount, ih, delegateCalls_process]

/-- While the loop is running, the delegate has been called once per new-task event of
the schedule, in the order of the events. -/
theorem runLoop_delegateCalls (env : Env) (o : Operator) (s : List SelectCase) :
    ∀ (st st1 : LoopState) (tr : List Effect),
      runLoop env o st s = (tr, Outcome.running st1) → delegateCalls tr = delegateCallsOf s := by
  induction s with
  | nil =>
    intro st st1 tr h
    simp only [runLoop, Prod.mk.injEq] at h
    rw [← h.1]
    rfl
  | cons c rest ih =>
    intro st st1 tr h
    rcases hstep : loopStep env o st c with ⟨tr0, out⟩
    have hcalls := delegateCalls_loopStep env o st c
    rw [hstep] at hcalls
    cases out with
    | running st2 =>
      rw [runLoop_cons_running env o st st2 c rest tr0 hstep] at h
      simp only [Prod.mk.injEq] at h
      have hrest : runLoop env o st2 rest = ((runLoop env o st2 rest).1, Outcome.running st1) := by
        rw [← h.2]
      rw [← h.1, delegateCalls_append, ih st2 st1 _ hrest, delegateCallsOf_cons c rest]
      simp only at hcalls
      rw [hcalls]
    | returned e =>
      rw [runLoop_cons_stop env o st c rest tr0 _ hstep (by intro st1; simp)] at h
      simp at h
    | fatal =>
      rw [runLoop_cons_stop env o st c rest tr0 _ hstep (by intro st1; simp)] at h
      simp at h
    | panicked m =>
      rw [runLoop_cons_stop env o st c rest tr0 _ hstep (by intro st1; simp)] at h
      simp at h

/-! ## Claims -/

/-- C1: for every new-task event `e` handled by one iteration of the `Start` loop, with
any delegate reply and any digest outcome, the signed responses handed to
`SendSignedTaskResponseToAggregator` are either none at all, or exactly one (a non-nil
pointer) whose `TaskResponse.ReferenceTaskIndex` equals `e.TaskIndex`. -/
theorem C1_dispatch_index_matches (env : Env) (o : Operator) (st : LoopState)
    (e : NewTaskCreated) (x : Exchange) :
    dispatched (loopStep env o st (SelectCase.newTask e x)).1 = [] ∨
      ∃ s, dispatched (loopStep env o st (SelectCase.newTask e x)).1 = [some s] ∧
        s.TaskResponse.ReferenceTaskIndex = e.TaskIndex := by
  cases hp : (ProcessNewTaskCreatedLog e x).2 with
  | panic msg =>
    left
    rw [loopStep_newTask_panic env o st e x msg hp]
    simp [dispatched_append, dispatched, dispatched_process]
  | ret r =>
    rcases sign_results env o r with ⟨he, s, hs⟩ | ⟨_, err, he⟩
    · right
      refine ⟨s, ?_, ?_⟩
      · rw [loopStep_newTask_dispatch env o st e x r hp he]
        simp [dispatched_append, dispatched, dispatched_process, dispatched_sign, hs]
      · rw [sign_some_embeds env o r s hs]
        exact process_ret_index e x r hp
    · left
      rw [loopStep_newTask_skip env o st e x r err hp he]
      simp [dispatched_append, dispatched, dispatched_process, dispatched_sign]

/-- C3: for every `TaskResponse` `r` whose digest computation succeeds with hash `h`,
`SignTaskResponse` returns a nil error and a `SignedTaskResponse` whose `TaskResponse`
is `r`, whose `BlsSignature` is the keypair's signature over `h` and whose `OperatorId`
is the operator's `operatorId`; an operator with the same keypair and the same
`operatorId` gets the same result and performs the same effects, whatever its other
fields are. -/
theorem C3_sign_success (env : Env) (o : Operator) (r : TaskResponse) (h : Digest)
    (hd : env.GetTaskResponseDigest r = Except.ok h) :
    (SignTaskResponse env o r).2 =
        { signed := some { TaskResponse := r,
                           BlsSignature := env.SignMessage o.blsKeypair h,
                           OperatorId := o.operatorId },
          err := none } ∧
      ∀ o2 : Operator, o2.blsKeypair = o.blsKeypair → o2.operatorId = o.operatorId →
        SignTaskResponse env o2 r = SignTaskResponse env o r := by
  constructor
  · simp only [SignTaskResponse, hd]
  · intro o2 hk hi
    simp only [SignTaskResponse, hk, hi]

/-- Witness of C3: the response `{7, "ABCXYZ"}` digests to 13 under the scenario
environment and is signed with key 3 by operator 77. -/
theorem C3_sign_success_witness :
    scenarioEnv.GetTaskResponseDigest
        { ReferenceTaskIndex := 7, EncryptedLoanApplicationInference := "ABCXYZ" } = Except.ok 13 ∧
      (SignTaskResponse scenarioEnv scenarioOperator
          { ReferenceTaskIndex := 7, EncryptedLoanApplicationInference := "ABCXYZ" }).2 =
        { signed := some { TaskResponse :=
                             { ReferenceTaskIndex := 7, EncryptedLoanApplicationInference := "ABCXYZ" },
                           BlsSignature := { G1Point := 39 },
                           OperatorId := 77 },
          err := none } :=
  ⟨rfl, (C3_sign_success scenarioEnv scenarioOperator
    { ReferenceTaskIndex := 7, EncryptedLoanApplicationInference := "ABCXYZ" } 13 rfl).1⟩

/-- C4: for every `TaskResponse` `r`, `SignTaskResponse` returns a non-nil error exactly
when the digest computation of `r` fails; in that case the returned
`SignedTaskResponse` is nil, the returned error is the digest error, and `SignMessage`
is not invoked. -/
theorem C4_sign_error_iff_digest_fails (env : Env) (o : Operator) (r : TaskResponse) :
    ((SignTaskResponse env o r).2.err ≠ none ↔
        ∃ e, env.GetTaskResponseDigest r = Except.error e) ∧
      ∀ e, env.GetTaskResponseDigest r = Except.error e →
        (SignTaskResponse env o r).2 = { signed := none, err := some e } ∧
          ∀ k h, Effect.signMessage k h ∉ (SignTaskResponse env o r).1 := by
  constructor
  · unfold SignTaskResponse
    cases env.GetTaskResponseDigest r <;> simp
  · intro e he
    simp [SignTaskResponse, he]

/-- Witness of C4: under the scenario environment the digest of a response for task
index 9 fails, and signing it returns `(nil, digest error)` without calling
`SignMessage`. -/
theorem C4_sign_error_iff_digest_fails_witness :
    scenarioEnv.GetTaskResponseDigest
        { ReferenceTaskIndex := 9, EncryptedLoanApplicationInference := "ABCXYZ" } =
        Except.error "simulated digest error" ∧
      (SignTaskResponse scenarioEnv scenarioOperator
          { ReferenceTaskIndex := 9, EncryptedLoanApplicationInference := "ABCXYZ" }).2 =
        { signed := none, err := some "simulated digest error" } ∧
      ∀ k h, Effect.signMessage k h ∉ (SignTaskResponse scenarioEnv scenarioOperator
          { ReferenceTaskIndex := 9, EncryptedLoanApplicationInference := "ABCXYZ" }).1 :=
  ⟨rfl, (C4_sign_error_iff_digest_fails scenarioEnv scenarioOperator
    { ReferenceTaskIndex := 9, EncryptedLoanApplicationInference := "ABCXYZ" }).2 _ rfl⟩

/-- C5: in the `Start` loop, when signing fails for a new-task event, nothing is handed
to `SendSignedTaskResponseToAggregator` for it, the loop stays running in the same
state (same subscription handle), and the remaining schedule is run exactly as it is
run without the failed task: same outcome, and the effects are those of the skipped
task (none of them a hand-over) followed by those of the run without it. -/
theorem C5_sign_failure_skips_task (env : Env) (o : Operator) (st : LoopState)
    (e : NewTaskCreated) (x : Exchange) (r : TaskResponse) (err : String)
    (rest : List SelectCase)
    (hp : (ProcessNewTaskCreatedLog e x).2 = Res.ret r)
    (he : (SignTaskResponse env o r).2.err = some err) :
    dispatched (loopStep env o st (SelectCase.newTask e x)).1 = [] ∧
      (loopStep env o st (SelectCase.newTask e x)).2 = Outcome.running st ∧
      (runLoop env o st (SelectCase.newTask e x :: rest)).2 = (runLoop env o st rest).2 ∧
      (runLoop env o st (SelectCase.newTask e x :: rest)).1 =
        (loopStep env o st (SelectCase.newTask e x)).1 ++ (runLoop env o st rest).1 ∧
      dispatched (runLoop env o st (SelectCase.newTask e x :: rest)).1 =
        dispatched (runLoop env o st rest).1 := by
  have hstep := loopStep_newTask_skip env o st e x r err hp he
  have hd : dispatched (loopStep env o st (SelectCase.newTask e x)).1 = [] := by
    rw [hstep]
    simp [dispatched_append, dispatched, dispatched_process, dispatched_sign]
  have hrun := runLoop_cons_running env o st st (SelectCase.newTask e x) rest _ hstep
  refine ⟨hd, by rw [hstep], by rw [hrun], ?_, ?_⟩
  · rw [hrun, hstep]
  · rw [hstep] at hd
    rw [hrun, dispatched_append, hd]
    simp

/-- Witness of C5: signing fails for task index 9 (simulated digest error); task index
10 arrives next and is dispatched, and nothing is delivered for task 9. -/
theorem C5_sign_failure_skips_task_witness :
    (ProcessNewTaskCreatedLog (taskEvent 9 42) (Exchange.answered "xyz" 200 "ABCXYZ" none)).2 =
        Res.ret { ReferenceTaskIndex := 9, EncryptedLoanApplicationInference := "ABCXYZ" } ∧
      (SignTaskResponse scenarioEnv scenarioOperator
          { ReferenceTaskIndex := 9, EncryptedLoanApplicationInference := "ABCXYZ" }).2.err =
        some "simulated digest error" ∧
      dispatched (runLoop scenarioEnv scenarioOperator initialLoopState
          [SelectCase.newTask (taskEvent 9 42) (Exchange.answered "xyz" 200 "ABCXYZ" none),
           SelectCase.newTask (taskEvent 10 43) (Exchange.answered "xyz" 200 "DEF" none)]).1 =
        dispatched (runLoop scenarioEnv scenarioOperator initialLoopState
          [SelectCase.newTask (taskEvent 10 43) (Exchange.answered "xyz" 200 "DEF" none)]).1 ∧
      dispatched (Start scenarioEnv scenarioOperator registeredReply
          [SelectCase.newTask (taskEvent 9 42) (Exchange.answered "xyz" 200 "ABCXYZ" none),
           SelectCase.newTask (taskEvent 10 43) (Exchange.answered "xyz" 200 "DEF" none)]).1 =
        [some { TaskResponse := { ReferenceTaskIndex := 10, EncryptedLoanApplicationInference := "DEF" },
                BlsSignature := { G1Point := 39 },
                OperatorId := 77 }] :=
  ⟨rfl, rfl,
    (C5_sign_failure_skips_task scenarioEnv scenarioOperator initialLoopState (taskEvent 9 42)
      (Exchange.answered "xyz" 200 "ABCXYZ" none)
      { ReferenceTaskIndex := 9, EncryptedLoanApplicationInference := "ABCXYZ" }
      "simulated digest error"
      [SelectCase.newTask (taskEvent 10 43) (Exchange.answered "xyz" 200 "DEF" none)] rfl rfl).2.2.2.2,
    by decide⟩

/-- C6 (failing input): when `client.Do` returns a nil response and an error (network
failure), `ProcessNewTaskCreatedLog` does not return a `TaskResponse`: after printing
the error it panics on `defer response.Body.Close()`, and the loop iteration of `Start`
that called it ends in that panic without handing anything to the aggregator. -/
theorem C6_network_failure_panics :
    (ProcessNewTaskCreatedLog (taskEvent 7 42)
        (Exchange.networkFailure "xyz" "dial tcp 127.0.0.1:8000: connect: connection refused")).2 =
      Res.panic "runtime error: invalid memory address or nil pointer dereference" ∧
    (ProcessNewTaskCreatedLog (taskEvent 7 42)
        (Exchange.networkFailure "xyz" "dial tcp 127.0.0.1:8000: connect: connection refused")).1 =
      [Effect.log Level.debug "Received new task", Effect.log Level.info "Received new task",
       Effect.httpDo { Method := "POST", URL := "http://localhost:8000/run_fhe",
                       ContentType := "multipart/form-data; boundary=xyz",
                       Form := [("client_id", "42")] },
       Effect.httpSend { Method := "POST", URL := "http://localhost:8000/run_fhe",
                         Form := [("client_id", "42")] },
       Effect.print
         "The HTTP request failed with error dial tcp 127.0.0.1:8000: connect: connection refused\n"] ∧
    (Start scenarioEnv scenarioOperator registeredReply
        [SelectCase.newTask (taskEvent 7 42)
          (Exchange.networkFailure "xyz" "dial tcp 127.0.0.1:8000: connect: connection refused")]).2 =
      Outcome.panicked "runtime error: invalid memory address or nil pointer dereference" := by
  refine ⟨by decide, by decide, by decide⟩

/-- C7: if the registration query reports that the operator is not registered, `Start`
returns a non-nil descriptive error and its only effect is the registration query: the
node API and the metrics are not started, `SubscribeToNewTasks` is not called, the
delegate service is not called and nothing is handed to the aggregator client. -/
theorem C7_unregistered_refuses_to_start (env : Env) (o : Operator) (schedule : List SelectCase) :
    (Start env o unregisteredReply schedule).2 = Outcome.returned (some
        "operator is not registered. Registering operator using the operator-cli before starting operator") ∧
      (Start env o unregisteredReply schedule).1 = [Effect.isOperatorRegistered o.operatorAddr] ∧
      Effect.nodeApiStart ∉ (Start env o unregisteredReply schedule).1 ∧
      Effect.metricsStart ∉ (Start env o unregisteredReply schedule).1 ∧
      (∀ h, Effect.subscribe h ∉ (Start env o unregisteredReply schedule).1) ∧
      delegateCalls (Start env o unregisteredReply schedule).1 = [] ∧
      dispatched (Start env o unregisteredReply schedule).1 = [] := by
  have ht : Start env o unregisteredReply schedule =
      ([Effect.isOperatorRegistered o.operatorAddr], Outcome.returned (some
        "operator is not registered. Registering operator using the operator-cli before starting operator")) := rfl
  rw [ht]
  simp [delegateCalls, dispatched]

/-- C8 as stated fails: at the first wait of a started operator the cancellation signal
is ready together with a new-task event, the runtime picks the new-task event, and the
loop does not return: it posts to the delegate service and keeps running. -/
theorem C8_counterexample_select_picks_ready_task :
    (Start scenarioEnv scenarioOperator registeredReply []).2 = Outcome.running initialLoopState ∧
      cancelledWithTaskReady.wellFormed ∧
      SelectCase.done ∈ cancelledWithTaskReady.ready ∧
      (selectStep scenarioEnv scenarioOperator initialLoopState cancelledWithTaskReady).2 =
        Outcome.running initialLoopState ∧
      delegateCalls
          (selectStep scenarioEnv scenarioOperator initialLoopState cancelledWithTaskReady).1 =
        [{ Method := "POST", URL := "http://localhost:8000/run_fhe",
           ContentType := "multipart/form-data; boundary=xyz", Form := [("client_id", "42")] }] := by
  refine ⟨by decide, ?_, ?_, by decide, by decide⟩
  · simp [Wait.wellFormed, cancelledWithTaskReady]
  · simp [cancelledWithTaskReady]

/-- C8 amended: in every loop state, when the cancellation signal is the communication
the `select` proceeds with (as it must be when nothing else is ready at that wait),
`Start` returns nil at that wait, and whatever else the schedule holds, the run ends
there without any call of the delegate service. -/
theorem C8_cancellation_chosen_returns_nil (env : Env) (o : Operator) (st : LoopState)
    (w : Wait) (rest : List SelectCase) (hw : w.wellFormed)
    (h : w.chosen = SelectCase.done ∨ ∀ c ∈ w.ready, c = SelectCase.done) :
    selectStep env o st w = ([Effect.selectOn st.sub], Outcome.returned none) ∧
      runLoop env o st (w.chosen :: rest) = ([Effect.selectOn st.sub], Outcome.returned none) ∧
      delegateCalls (runLoop env o st (w.chosen :: rest)).1 = [] := by
  have hc : w.chosen = SelectCase.done := by
    rcases h with h | h
    · exact h
    · exact h _ hw
  have hstep : loopStep env o st w.chosen = ([Effect.selectOn st.sub], Outcome.returned none) := by
    rw [hc]
    rfl
  have hrun := runLoop_cons_stop env o st w.chosen rest _ _ hstep (by intro st1; simp)
  refine ⟨hstep, hrun, ?_⟩
  rw [hrun]
  rfl

/-- Witness of C8 amended: the cancellation signal is the only ready communication at
the first wait; the run returns nil and the task event later in the schedule is never
processed. -/
theorem C8_cancellation_chosen_returns_nil_witness :
    (Wait.mk [SelectCase.done] SelectCase.done).wellFormed ∧
      runLoop scenarioEnv scenarioOperator initialLoopState
          [SelectCase.done,
           SelectCase.newTask (taskEvent 7 42) (Exchange.answered "xyz" 200 "ABCXYZ" none)] =
        ([Effect.selectOn 0], Outcome.returned none) :=
  ⟨by simp [Wait.wellFormed],
    (C8_cancellation_chosen_returns_nil scenarioEnv scenarioOperator initialLoopState
      (Wait.mk [SelectCase.done] SelectCase.done)
      [SelectCase.newTask (taskEvent 7 42) (Exchange.answered "xyz" 200 "ABCXYZ" none)]
      (by simp [Wait.wellFormed]) (Or.inl rfl)).2.1⟩

/-- C9: in the `Start` loop every subscription error handled causes exactly one
`Unsubscribe` on the current handle followed by exactly one `SubscribeToNewTasks`,
whose result becomes the current handle; while the loop runs, after n handled
subscription errors `SubscribeToNewTasks` has been called n+1 times; at every moment at
most one handle is live; after a handle was unsubscribed its error feed is never read
again and it is never unsubscribed again; a new-task event is processed exactly once
in every loop state, so also after any number of resubscriptions (one delegate call,
carrying its client id), a subscription-error iteration makes no delegate call, and
while the loop runs the delegate calls are those of the new-task events of the
schedule, one each and in their order; and for task 7, subscription error, task 8 the
delegate is called for 7 and then for 8 only, and one response is handed over for
each. -/
theorem C9_resubscribe_once_per_error (env : Env) (o : Operator) :
    (∀ (st : LoopState) (err : String),
        loopStep env o st (SelectCase.subErr err) =
          ([Effect.selectOn st.sub, Effect.log Level.error "Error in websocket subscription",
            Effect.unsubscribe st.sub, Effect.subscribe st.nextSub],
            Outcome.running { sub := st.nextSub, nextSub := st.nextSub + 1 })) ∧
      (∀ (s : List SelectCase) (tr : List Effect) (st : LoopState),
        Start env o registeredReply s = (tr, Outcome.running st) →
          subscribeCount tr = subErrCount s + 1) ∧
      (∀ (s : List SelectCase) (before after : List Effect),
        (Start env o registeredReply s).1 = before ++ after → (live before).length ≤ 1) ∧
      (∀ (s : List SelectCase) (before : List Effect) (h : Nat) (after : List Effect),
        (Start env o registeredReply s).1 = before ++ Effect.unsubscribe h :: after →
          Effect.selectOn h ∉ after ∧ Effect.unsubscribe h ∉ after) ∧
      (∀ (st : LoopState) (e : NewTaskCreated) (x : Exchange),
        delegateCalls (loopStep env o st (SelectCase.newTask e x)).1 =
          [{ Method := "POST", URL := "http://localhost:8000/run_fhe",
             ContentType := "multipart/form-data; boundary=" ++ x.boundary,
             Form := [("client_id", bigIntString e.Task.ComputeRequestClientId)] }]) ∧
      (∀ (st : LoopState) (err : String),
        delegateCalls (loopStep env o st (SelectCase.subErr err)).1 = []) ∧
      (∀ (s : List SelectCase) (tr : List Effect) (st : LoopState),
        Start env o registeredReply s = (tr, Outcome.running st) →
          delegateCalls tr = delegateCallsOf s ∧ (delegateCalls tr).length = taskCount s) ∧
      delegateCalls (Start scenarioEnv scenarioOperator registeredReply
          [SelectCase.newTask (taskEvent 7 42) (Exchange.answered "xyz" 200 "ABCXYZ" none),
           SelectCase.subErr "websocket: close 1006 (abnormal closure)",
           SelectCase.newTask (taskEvent 8 43) (Exchange.answered "xyz" 200 "DEF" none)]).1 =
        [{ Method := "POST", URL := "http://localhost:8000/run_fhe",
           ContentType := "multipart/form-data; boundary=xyz", Form := [("client_id", "42")] },
         { Method := "POST", URL := "http://localhost:8000/run_fhe",
           ContentType := "multipart/form-data; boundary=xyz", Form := [("client_id", "43")] }] ∧
      dispatched (Start scenarioEnv scenarioOperator registeredReply
          [SelectCase.newTask (taskEvent 7 42) (Exchange.answered "xyz" 200 "ABCXYZ" none),
           SelectCase.subErr "websocket: close 1006 (abnormal closure)",
           SelectCase.newTask (taskEvent 8 43) (Exchange.answered "xyz" 200 "DEF" none)]).1 =
        [some { TaskResponse := { ReferenceTaskIndex := 7,
                                  EncryptedLoanApplicationInference := "ABCXYZ" },
                BlsSignature := { G1Point := 39 }, OperatorId := 77 },
         some { TaskResponse := { ReferenceTaskIndex := 8,
                                  EncryptedLoanApplicationInference := "DEF" },
                BlsSignature := { G1Point := 33 }, OperatorId := 77 }] := by
  refine ⟨fun st err => rfl, ?_, ?_, ?_, ?_, fun st err => rfl, ?_, by decide, by decide⟩
  · intro s tr st h
    rw [Start_registered] at h
    simp only [Prod.mk.injEq] at h
    have hrun : runLoop env o initialLoopState s =
        ((runLoop env o initialLoopState s).1, Outcome.running st) := by
      rw [← h.2]
    have := runLoop_subscribeCount env o s _ st _ hrun
    rw [← h.1, subscribeCount_append, subscribeCount_free _ (startupEffects_free o)]
    simp [subscribeCount, this]
  · intro s before after h
    rw [Start_registered] at h
    have hall : AtMostOneLive [] (startupEffects o ++
        Effect.subscribe 0 :: (runLoop env o initialLoopState s).1) := by
      apply atMostOneLive_free_append _ _ _ (startupEffects_free o) (by simp)
      apply atMostOneLive_cons _ _ _ (by simp)
      exact runLoop_atMostOneLive env o s initialLoopState
    exact hall before after h
  · intro s before h after heq
    rw [Start_registered] at heq
    have hall : NoUseAfterUnsubscribe (startupEffects o ++
        Effect.subscribe 0 :: (runLoop env o initialLoopState s).1) := by
      apply noUse_free_append _ _ (startupEffects_free o)
      apply noUse_cons_other _ _ (by intro k; simp)
      exact runLoop_noUse env o s initialLoopState (by decide)
    exact hall before h after heq
  · intro st e x
    rw [delegateCalls_loopStep]
    simp [delegateCallsOf, delegateCalls_process]
  · intro s tr st h
    rw [Start_registered] at h
    simp only [Prod.mk.injEq] at h
    have hrun : runLoop env o initialLoopState s =
        ((runLoop env o initialLoopState s).1, Outcome.running st) := by
      rw [← h.2]
    have hcalls : delegateCalls tr = delegateCallsOf s := by
      rw [← h.1, delegateCalls_append, delegateCalls_startupEffects]
      simp [delegateCalls, runLoop_delegateCalls env o s _ st _ hrun]
    exact ⟨hcalls, by rw [hcalls, delegateCallsOf_length]⟩

/-- C10 as stated fails: a started operator whose first wait proceeds with the
cancellation signal returns nil, its subscription 0 was created and never
unsubscribed, and it is still live after `Start` has returned. -/
theorem C10_counterexample_cancel_leaves_subscription_live :
    (Start scenarioEnv scenarioOperator registeredReply [SelectCase.done]).2 =
        Outcome.returned none ∧
      Effect.subscribe 0 ∈
        (Start scenarioEnv scenarioOperator registeredReply [SelectCase.done]).1 ∧
      Effect.unsubscribe 0 ∉
        (Start scenarioEnv scenarioOperator registeredReply [SelectCase.done]).1 ∧
      live (Start scenarioEnv scenarioOperator registeredReply [SelectCase.done]).1 = [0] := by
  refine ⟨by decide, by decide, by decide, by decide⟩

/-- C10 amended: when `Start` terminates because of cancellation, it returns nil with
the read of the cancellation signal as its last effect and without calling
`Unsubscribe` on the handle that was current at that moment: that handle was never
unsubscribed, and it is the one handle still live after `Start` has returned. -/
theorem C10_cancel_returns_without_unsubscribe (env : Env) (o : Operator)
    (s rest : List SelectCase) (tr : List Effect) (st : LoopState)
    (h : Start env o registeredReply s = (tr, Outcome.running st)) :
    Start env o registeredReply (s ++ SelectCase.done :: rest) =
        (tr ++ [Effect.selectOn st.sub], Outcome.returned none) ∧
      Effect.unsubscribe st.sub ∉ tr ++ [Effect.selectOn st.sub] ∧
      live (tr ++ [Effect.selectOn st.sub]) = [st.sub] := by
  rw [Start_registered] at h
  simp only [Prod.mk.injEq] at h
  obtain ⟨htr, hout⟩ := h
  have hrun : runLoop env o initialLoopState s =
      ((runLoop env o initialLoopState s).1, Outcome.running st) := by
    rw [← hout]
  have hdone : runLoop env o st (SelectCase.done :: rest) =
      ([Effect.selectOn st.sub], Outcome.returned none) :=
    runLoop_cons_stop env o st SelectCase.done rest _ _ rfl (by intro st1; simp)
  have happ := runLoop_append env o s (SelectCase.done :: rest) initialLoopState st _ hrun
  rw [hdone] at happ
  have hold := runLoop_unsubscribed_older env o s initialLoopState st _ (by decide) hrun
  have hlive := runLoop_live_running env o s initialLoopState st _ hrun
  refine ⟨?_, ?_, ?_⟩
  · rw [Start_registered, happ, ← htr]
    simp
  · rw [← htr]
    intro hm
    simp only [List.append_assoc, List.cons_append, List.mem_append, List.mem_cons,
      reduceCtorEq, List.mem_nil_iff, or_false, false_or] at hm
    rcases hm with hm | hm
    · exact absurd hm (free_not_mem _ (startupEffects_free o) st.sub).2.1
    · have := hold.2 _ hm
      omega
  · rw [← htr]
    unfold live
    rw [liveFrom_append, liveFrom_append, liveFrom_free _ _ (startupEffects_free o)]
    simp only [liveFrom, List.nil_append]
    exact hlive

/-- Witness of C10 amended: task 7 is processed, a subscription error makes the loop
resubscribe (handle 1), then the cancellation signal is taken: `Start` returns nil,
handle 1 is never unsubscribed and is still live. -/
theorem C10_cancel_returns_without_unsubscribe_witness :
    (Start scenarioEnv scenarioOperator registeredReply
        [SelectCase.newTask (taskEvent 7 42) (Exchange.answered "xyz" 200 "ABCXYZ" none),
         SelectCase.subErr "websocket: close 1006 (abnormal closure)"]).2 =
      Outcome.running { sub := 1, nextSub := 2 } ∧
    (Start scenarioEnv scenarioOperator registeredReply
        ([SelectCase.newTask (taskEvent 7 42) (Exchange.answered "xyz" 200 "ABCXYZ" none),
          SelectCase.subErr "websocket: close 1006 (abnormal closure)"] ++
          SelectCase.done :: [])).2 = Outcome.returned none ∧
    live (Start scenarioEnv scenarioOperator registeredReply
        ([SelectCase.newTask (taskEvent 7 42) (Exchange.answered "xyz" 200 "ABCXYZ" none),
          SelectCase.subErr "websocket: close 1006 (abnormal closure)"] ++
          SelectCase.done :: [])).1 = [1] := by
  have h := C10_cancel_returns_without_unsubscribe scenarioEnv scenarioOperator
    [SelectCase.newTask (taskEvent 7 42) (Exchange.answered "xyz" 200 "ABCXYZ" none),
     SelectCase.subErr "websocket: close 1006 (abnormal closure)"] []
    _ { sub := 1, nextSub := 2 } (Prod.ext rfl (by decide))
  refine ⟨by decide, ?_, ?_⟩
  · rw [h.1]
  · rw [h.1]
    exact h.2.2

end IncredibleSquaring
